import Mathlib

/-!
Verification of the Offline-AI-Chat repository: a shallow embedding of the
two source files and proofs of the specified properties.

* `src/route.ts` — the Inference Bridge: a single POST handler that validates
  the inbound `{message, model}` body, forwards it to the upstream generation
  endpoint with fixed sampling parameters, and normalises the reply.
* `src/page.tsx` — the Chat Session Manager: client state (message list,
  pending input, loading flag, connectivity, selected model) and the
  `sendMessage` / `clearChat` handlers.

JavaScript-specific behaviours are embedded explicitly: `x || d` on strings
treats the empty string as falsy (`jsOr`), `!s` on a possibly-absent string
is true for `undefined` and `""` (`jsFalsy`), and `String.prototype.trim`
strips leading and trailing whitespace (`jsTrim`).

`sendMessage` suspends at its `fetch`; we split it into the synchronous
prefix (`sendMessagePhase1`, everything before the await: the optimistic
user-message append, clearing the input, raising the loading flag and
issuing the request) and the continuation (`settle`, everything after the
fetch resolves or rejects: appending the single assistant message and
lowering the loading flag).  The in-flight request is recorded in the
`pending` field; `clearChat` does not touch it, exactly as the source
provides no cancellation.
-/

namespace OfflineAIChat

/-- JS truthiness coercion `x || d` for a possibly-undefined string `x`:
the default is taken when `x` is `undefined` or the empty string. -/
def jsOr : Option String → String → String
  | some s, d => if s = "" then d else s
  | none, d => d

/-- JS `!x` for a possibly-undefined string: true for `undefined` and `""`. -/
def jsFalsy : Option String → Bool
  | some s => s = ""
  | none => true

/-- Embedding of `String.prototype.trim`: strip leading and trailing
whitespace characters. -/
def jsTrim (s : String) : String :=
  ⟨((s.data.dropWhile Char.isWhitespace).reverse.dropWhile Char.isWhitespace).reverse⟩

/-- `fetch` responses are "ok" when the status is in the 2xx range. -/
def responseOk (status : Nat) : Bool := 200 ≤ status && status < 300

/-! ## Inference Bridge (`src/route.ts`) -/

/-- The JSON body the bridge POSTs to `http://localhost:11434/api/generate`
(route.ts lines 19–28).  `temperature` and `top_p` are the literal rationals. -/
structure GenerateRequest where
  model : String
  prompt : String
  stream : Bool
  temperature : ℚ
  top_p : ℚ
  top_k : Nat
deriving DecidableEq, Repr

/-- The inbound bridge request body `{message, model}`; either field may be
absent from the JSON. -/
structure ChatRequest where
  message : Option String
  model : Option String
deriving DecidableEq, Repr

/-- The upstream JSON body as the bridge reads it: `data.response` may be
absent. -/
structure UpstreamBody where
  response : Option String
deriving DecidableEq, Repr

/-- Outcome of the bridge's `fetch` to the upstream server: an ok response
with a parsed body, a non-ok status (route.ts line 31), or a thrown
network error. -/
inductive UpstreamResult
  | ok (body : UpstreamBody)
  | httpError (status : Nat) (text : String)
  | networkError
deriving DecidableEq, Repr

/-- The bridge's own JSON reply together with its HTTP status
(`NextResponse.json`): exactly one of `response` / `error` is set. -/
structure BridgeResponse where
  status : Nat
  response : Option String
  error : Option String
deriving DecidableEq, Repr

/-- route.ts line 8. -/
def messageRequiredMsg : String := "Message is required"

/-- route.ts line 41. -/
def noResponseFallback : String := "No response received from the model"

/-- route.ts line 47. -/
def bridgeErrorMsg : String :=
  "Failed to process your request. Make sure Ollama is running and the model is available."

/-- The body forwarded upstream for an accepted message (route.ts
lines 19–28): the request's model (defaulted to `"llama3:latest"` when
absent, line 5), the message as prompt, `stream: false`, and the fixed
sampling options. -/
def genRequestOf (message : String) (model : Option String) : GenerateRequest :=
  { model := model.getD "llama3:latest"
    prompt := message
    stream := false
    temperature := 7/10
    top_p := 9/10
    top_k := 40 }

/-- Embedding of the `POST` handler (route.ts lines 3–52), parameterised by
the upstream server's behaviour.  Returns the bridge response together with
the upstream request that was issued, if any (`none` = the upstream was
never contacted). -/
def POST (req : ChatRequest) (upstream : GenerateRequest → UpstreamResult) :
    BridgeResponse × Option GenerateRequest :=
  if jsFalsy req.message then
    (⟨400, none, some messageRequiredMsg⟩, none)
  else
    let genReq := genRequestOf (req.message.getD "") req.model
    match upstream genReq with
    | .ok data =>
        (⟨200, some (jsOr data.response noResponseFallback), none⟩, some genReq)
    | .httpError _ _ => (⟨500, none, some bridgeErrorMsg⟩, some genReq)
    | .networkError => (⟨500, none, some bridgeErrorMsg⟩, some genReq)

/-! ## Chat Session Manager (`src/page.tsx`) -/

/-- Message roles (page.tsx line 17). -/
inductive Role
  | user
  | assistant
deriving DecidableEq, Repr

/-- A chat message (page.tsx lines 14–19).  `id` and `timestamp` are the
`Date.now()` values at creation, modelled as naturals. -/
structure Message where
  id : Nat
  content : String
  role : Role
  timestamp : Nat
deriving DecidableEq, Repr

/-- The body of an in-flight `/api/chat` call (page.tsx lines 113–116). -/
structure PendingCall where
  message : String
  model : String
deriving DecidableEq, Repr

/-- The client state: the `useState` hooks of `ChatInterface`
(page.tsx lines 51–56) plus the in-flight request, if any. -/
structure ClientState where
  messages : List Message
  input : String
  isLoading : Bool
  isConnected : Bool
  selectedModel : String
  pending : Option PendingCall
deriving DecidableEq, Repr

/-- The effective content of a send: `messageContent || input.trim()`
(page.tsx line 93). -/
def sendContent (messageContent : Option String) (s : ClientState) : String :=
  jsOr messageContent (jsTrim s.input)

/-- The synchronous prefix of `sendMessage` (page.tsx lines 92–117): the
guard `if (!content || isLoading) return`, then the optimistic user-message
append, clearing the input, raising the loading flag, and issuing the
bridge call.  `now` is `Date.now()` at this instant. -/
def sendMessagePhase1 (now : Nat) (messageContent : Option String)
    (s : ClientState) : ClientState :=
  let content := sendContent messageContent s
  if content = "" ∨ s.isLoading = true then s
  else
    { s with
      messages := s.messages ++ [⟨now, content, Role.user, now⟩]
      input := ""
      isLoading := true
      pending := some ⟨content, s.selectedModel⟩ }

/-- page.tsx line 136: the fixed advisory text of the synthetic assistant
message appended on any failure. -/
def errorFallback : String :=
  "Sorry, I encountered an error. Please make sure Ollama is running locally."

/-- How the in-flight `/api/chat` call resolves, as the client observes it:
an ok response whose body carries `response`, or a failure (a non-ok status
makes line 120 throw; a network error makes the `fetch` itself throw —
both land in the same `catch`). -/
inductive FetchOutcome
  | ok (response : String)
  | error
deriving DecidableEq, Repr

/-- The continuation of `sendMessage` after the `fetch` settles (page.tsx
lines 119–143): append exactly one assistant message — the reply on
success, the fixed fallback on failure — and lower the loading flag.  The
appends use functional updates `(prev) => [...prev, m]`, so they apply to
the message list as it stands at settlement time.  `now` is `Date.now()`
at this instant; the assistant message's id is `now + 1` (line 126). -/
def settle (now : Nat) (outcome : FetchOutcome) (s : ClientState) : ClientState :=
  match s.pending with
  | none => s
  | some _ =>
      let msg : Message :=
        match outcome with
        | .ok r => ⟨now + 1, r, Role.assistant, now⟩
        | .error => ⟨now + 1, errorFallback, Role.assistant, now⟩
      { s with
        messages := s.messages ++ [msg]
        isLoading := false
        pending := none }

/-- `clearChat` (page.tsx lines 151–153): `setMessages([])` and nothing
else — in particular the in-flight request, if any, is not cancelled. -/
def clearChat (s : ClientState) : ClientState :=
  { s with messages := [] }

/-- A convenient fresh session for concrete runs (page.tsx lines 51–56
initial values, with the connectivity probe having succeeded). -/
def initialState : ClientState :=
  { messages := []
    input := ""
    isLoading := false
    isConnected := true
    selectedModel := "llama3:latest"
    pending := none }

/-- A session that has been through one successful exchange, for concrete
runs. -/
def chatAfterOneExchange : ClientState :=
  settle 2 (.ok "hello") (sendMessagePhase1 1 (some "hi") initialState)

/-! ## Theorems -/

/-- C1: for every submit of non-empty effective content that succeeds (the
bridge call returns a success status), exactly one user-role message and
then exactly one assistant-role message are appended to the message list,
in that order, and the loading flag is false after the exchange settles. -/
theorem submit_success_appends_user_then_assistant
    (s : ClientState) (mc : Option String) (n1 n2 : Nat) (reply : String)
    (hload : s.isLoading = false) (hc : sendContent mc s ≠ "") :
    (settle n2 (.ok reply) (sendMessagePhase1 n1 mc s)).messages
      = s.messages ++ [⟨n1, sendContent mc s, Role.user, n1⟩,
                       ⟨n2 + 1, reply, Role.assistant, n2⟩] ∧
    (settle n2 (.ok reply) (sendMessagePhase1 n1 mc s)).isLoading = false := by
  simp [sendMessagePhase1, settle, hload, hc]

/-- Witness for C1: a concrete successful exchange from the initial state. -/
theorem submit_success_appends_user_then_assistant_witness :
    (settle 2 (.ok "hello") (sendMessagePhase1 1 (some "hi") initialState)).messages
      = initialState.messages ++ [⟨1, "hi", Role.user, 1⟩,
                                  ⟨3, "hello", Role.assistant, 2⟩] ∧
    (settle 2 (.ok "hello") (sendMessagePhase1 1 (some "hi") initialState)).isLoading
      = false :=
  submit_success_appends_user_then_assistant initialState (some "hi") 1 2 "hello"
    rfl (by decide)

/-- C2: submitting from the input field when the field is empty or
whitespace-only is a no-op: the session state, the message list and the
in-flight request are all unchanged. -/
theorem submit_whitespace_input_noop
    (s : ClientState) (n : Nat) (h : ∀ c ∈ s.input.data, c.isWhitespace) :
    sendMessagePhase1 n none s = s := by
  have ht : jsTrim s.input = "" := by
    simp [jsTrim, List.dropWhile_eq_nil_iff.mpr h]
  simp [sendMessagePhase1, sendContent, jsOr, ht]

/-- Witness for C2: a whitespace-only input field. -/
theorem submit_whitespace_input_noop_witness :
    sendMessagePhase1 5 none { initialState with input := "  " }
      = { initialState with input := "  " } :=
  submit_whitespace_input_noop { initialState with input := "  " } 5 (by decide)

/-- C3: while the loading flag is true, any further submit — whatever its
content — is a no-op: the state, including the message list and the
in-flight request, is unchanged. -/
theorem submit_while_loading_noop
    (s : ClientState) (mc : Option String) (n : Nat)
    (h : s.isLoading = true) :
    sendMessagePhase1 n mc s = s := by
  simp [sendMessagePhase1, h]

/-- Witness for C3: a submit of non-empty content while loading. -/
theorem submit_while_loading_noop_witness :
    sendMessagePhase1 7 (some "more") { initialState with isLoading := true }
      = { initialState with isLoading := true } :=
  submit_while_loading_noop { initialState with isLoading := true } (some "more") 7 rfl

/-- C4: for every bridge request whose message field is missing or the
empty string, the bridge returns status 400 with the error body
"Message is required" and never contacts the upstream server. -/
theorem bridge_rejects_missing_or_empty_message
    (req : ChatRequest) (upstream : GenerateRequest → UpstreamResult)
    (h : req.message = none ∨ req.message = some "") :
    POST req upstream = (⟨400, none, some messageRequiredMsg⟩, none) := by
  rcases h with h | h <;> simp [POST, jsFalsy, h]

/-- Witness for C4: the empty-message request against an arbitrary
upstream. -/
theorem bridge_rejects_missing_or_empty_message_witness :
    POST ⟨some "", some "llama3:latest"⟩ (fun _ => UpstreamResult.networkError)
      = (⟨400, none, some messageRequiredMsg⟩, none) :=
  bridge_rejects_missing_or_empty_message ⟨some "", some "llama3:latest"⟩
    (fun _ => UpstreamResult.networkError) (Or.inr rfl)

/-- C5, counterexample: the claim says the placeholder is substituted only
when the response field is absent from the upstream reply; but for the
upstream reply whose response field is present and equal to the empty
string, the bridge substitutes the placeholder instead of returning the
field's value unchanged (the JS `||` treats `""` as falsy). -/
theorem bridge_reply_placeholder_counterexample :
    (POST ⟨some "hi", none⟩ (fun _ => UpstreamResult.ok ⟨some ""⟩)).1.response
        = some noResponseFallback ∧
    (UpstreamBody.mk (some "")).response ≠ none ∧
    noResponseFallback ≠ "" := by
  refine ⟨by simp [POST, jsFalsy, jsOr], by simp, by decide⟩

/-- C5, amended: on a successful upstream reply the bridge returns the
generated text field unchanged when it is a non-empty string, and
substitutes the fixed placeholder when the field is absent or is the empty
string. -/
theorem bridge_reply_extraction
    (m : String) (model : Option String) (body : UpstreamBody)
    (upstream : GenerateRequest → UpstreamResult)
    (hm : m ≠ "") (hup : upstream (genRequestOf m model) = .ok body) :
    (POST ⟨some m, model⟩ upstream).1.status = 200 ∧
    (∀ r, body.response = some r → r ≠ "" →
        (POST ⟨some m, model⟩ upstream).1.response = some r) ∧
    ((body.response = none ∨ body.response = some "") →
        (POST ⟨some m, model⟩ upstream).1.response = some noResponseFallback) := by
  refine ⟨by simp [POST, jsFalsy, hm, hup], ?_, ?_⟩
  · intro r hr hne
    simp [POST, jsFalsy, hm, hup, jsOr, hr, hne]
  · rintro (hr | hr) <;> simp [POST, jsFalsy, hm, hup, jsOr, hr]

/-- Witness for the amended C5: a non-empty reply is passed through
unchanged. -/
theorem bridge_reply_extraction_witness :
    (POST ⟨some "hi", none⟩ (fun _ => UpstreamResult.ok ⟨some "hello"⟩)).1.response
      = some "hello" :=
  (bridge_reply_extraction "hi" none ⟨some "hello"⟩
      (fun _ => UpstreamResult.ok ⟨some "hello"⟩) (by decide) rfl).2.1
    "hello" rfl (by decide)

/-- C6: for every upstream reply with a non-success status, the bridge
returns status 500 with the fixed error payload — independent of the
upstream status and error text, so never the raw upstream error — the
client's ok-check fails on it, and the Session Manager's settlement of a
failed call appends exactly one assistant-role message carrying the fixed
fallback advisory text. -/
theorem upstream_failure_uniform_error
    (m : String) (model : Option String)
    (upstream : GenerateRequest → UpstreamResult) (st : Nat) (txt : String)
    (s : ClientState) (p : PendingCall) (n : Nat)
    (hm : m ≠ "") (hup : upstream (genRequestOf m model) = .httpError st txt)
    (hp : s.pending = some p) :
    (POST ⟨some m, model⟩ upstream).1 = ⟨500, none, some bridgeErrorMsg⟩ ∧
    responseOk (POST ⟨some m, model⟩ upstream).1.status = false ∧
    settle n .error s
      = { s with
          messages := s.messages ++ [⟨n + 1, errorFallback, Role.assistant, n⟩]
          isLoading := false
          pending := none } := by
  refine ⟨by simp [POST, jsFalsy, hm, hup], ?_, by simp [settle, hp]⟩
  simp [POST, jsFalsy, hm, hup, responseOk]

/-- Witness for C6: a concrete upstream 503 and a concrete in-flight
session. -/
theorem upstream_failure_uniform_error_witness :
    (POST ⟨some "hi", none⟩
        (fun _ => UpstreamResult.httpError 503 "overloaded")).1
      = ⟨500, none, some bridgeErrorMsg⟩ ∧
    responseOk (POST ⟨some "hi", none⟩
        (fun _ => UpstreamResult.httpError 503 "overloaded")).1.status = false ∧
    settle 9 .error
        { initialState with isLoading := true, pending := some ⟨"hi", "llama3:latest"⟩ }
      = { initialState with
          messages := [⟨10, errorFallback, Role.assistant, 9⟩]
          isLoading := false
          pending := none } :=
  upstream_failure_uniform_error "hi" none
    (fun _ => UpstreamResult.httpError 503 "overloaded") 503 "overloaded"
    { initialState with isLoading := true, pending := some ⟨"hi", "llama3:latest"⟩ }
    ⟨"hi", "llama3:latest"⟩ 9 (by decide) rfl rfl

/-- C7: `clearChat` empties the message list whatever its prior contents
and leaves every other session-state field — the loading flag, the
connectivity flag, the pending input, the selected model (and even the
in-flight request) — unchanged; a subsequent submit behaves normally,
appending its user message to the now-empty list and raising the loading
flag. -/
theorem clearChat_empties_messages_only
    (s : ClientState) (mc : Option String) (n : Nat)
    (hload : s.isLoading = false) (hc : sendContent mc s ≠ "") :
    (clearChat s).messages = [] ∧
    (clearChat s).isLoading = s.isLoading ∧
    (clearChat s).isConnected = s.isConnected ∧
    (clearChat s).input = s.input ∧
    (clearChat s).selectedModel = s.selectedModel ∧
    (clearChat s).pending = s.pending ∧
    (sendMessagePhase1 n mc (clearChat s)).messages
      = [⟨n, sendContent mc s, Role.user, n⟩] ∧
    (sendMessagePhase1 n mc (clearChat s)).isLoading = true := by
  have hcc : sendContent mc (clearChat s) = sendContent mc s := rfl
  have hcl : (clearChat s).isLoading = false := hload
  have hm0 : (clearChat s).messages = [] := rfl
  refine ⟨rfl, rfl, rfl, rfl, rfl, rfl, ?_, ?_⟩ <;>
    simp [sendMessagePhase1, hcc, hcl, hc, hm0]

/-- Witness for C7: reset of a two-message session followed by a
successful submit. -/
theorem clearChat_empties_messages_only_witness :
    (clearChat chatAfterOneExchange).messages = [] ∧
    (clearChat chatAfterOneExchange).isLoading = chatAfterOneExchange.isLoading ∧
    (clearChat chatAfterOneExchange).isConnected = chatAfterOneExchange.isConnected ∧
    (clearChat chatAfterOneExchange).input = chatAfterOneExchange.input ∧
    (clearChat chatAfterOneExchange).selectedModel
      = chatAfterOneExchange.selectedModel ∧
    (clearChat chatAfterOneExchange).pending = chatAfterOneExchange.pending ∧
    (sendMessagePhase1 4 (some "again") (clearChat chatAfterOneExchange)).messages
      = [⟨4, "again", Role.user, 4⟩] ∧
    (sendMessagePhase1 4 (some "again") (clearChat chatAfterOneExchange)).isLoading
      = true :=
  clearChat_empties_messages_only chatAfterOneExchange (some "again") 4 rfl (by decide)

/-- C8: for every accepted request (non-empty message, model supplied),
whatever the upstream then replies, the bridge forwarded exactly the
request's model and message together with the fixed sampling parameters
temperature 0.7, top_p 0.9, top_k 40 and stream false. -/
theorem bridge_forwards_fixed_sampling
    (m mdl : String) (upstream : GenerateRequest → UpstreamResult)
    (hm : m ≠ "") :
    (POST ⟨some m, some mdl⟩ upstream).2
      = some { model := mdl, prompt := m, stream := false,
               temperature := 7/10, top_p := 9/10, top_k := 40 } := by
  have h : genRequestOf m (some mdl)
      = { model := mdl, prompt := m, stream := false,
          temperature := 7/10, top_p := 9/10, top_k := 40 } := rfl
  rcases hu : upstream (genRequestOf m (some mdl)) with body | ⟨st, txt⟩ | _ <;>
    rw [h] at hu <;> simp [POST, jsFalsy, hm, hu, h]

/-- Witness for C8: a concrete accepted request. -/
theorem bridge_forwards_fixed_sampling_witness :
    (POST ⟨some "hi", some "mistral:7b"⟩ (fun _ => UpstreamResult.networkError)).2
      = some { model := "mistral:7b", prompt := "hi", stream := false,
               temperature := 7/10, top_p := 9/10, top_k := 40 } :=
  bridge_forwards_fixed_sampling "hi" "mistral:7b"
    (fun _ => UpstreamResult.networkError) (by decide)

/-- C9: when submit is given an explicit message argument, the argument is
used without trimming: for the whitespace-only argument " " on an idle
session, a user message with content " " is appended and a bridge call is
issued. -/
theorem explicit_argument_not_trimmed
    (s : ClientState) (n : Nat) (hload : s.isLoading = false) :
    (sendMessagePhase1 n (some " ") s).messages
      = s.messages ++ [⟨n, " ", Role.user, n⟩] ∧
    (sendMessagePhase1 n (some " ") s).pending = some ⟨" ", s.selectedModel⟩ := by
  have h : sendContent (some " ") s = " " := rfl
  constructor <;> simp [sendMessagePhase1, h, hload]

/-- Witness for C9: the whitespace argument on the initial state. -/
theorem explicit_argument_not_trimmed_witness :
    (sendMessagePhase1 1 (some " ") initialState).messages
      = initialState.messages ++ [⟨1, " ", Role.user, 1⟩] ∧
    (sendMessagePhase1 1 (some " ") initialState).pending
      = some ⟨" ", initialState.selectedModel⟩ :=
  explicit_argument_not_trimmed initialState 1 rfl

/-- C10: `clearChat` during an in-flight request does not cancel it: in the
concrete run submit "hi", then clearChat, then the pending call settles
with "hello", the assistant message is appended to the now-cleared list, so
the final message list is a lone assistant-role message with no preceding
user-role message. -/
theorem clearChat_does_not_cancel_inflight :
    (settle 2 (.ok "hello")
        (clearChat (sendMessagePhase1 1 (some "hi") initialState))).messages
      = [⟨3, "hello", Role.assistant, 2⟩] ∧
    ∀ msg ∈ (settle 2 (.ok "hello")
        (clearChat (sendMessagePhase1 1 (some "hi") initialState))).messages,
      msg.role = Role.assistant := by
  constructor <;> decide

end OfflineAIChat
